import Mathlib

/-!
Verification development for the customer-support pipeline
(orchestrator.py and app.py).

The Python source is shallowly embedded: every external API call
(Gmail auth, message list/get, the chat-completion endpoint, the Notion
create/query calls, the Slack webhook post, base64 decoding) is a field
of `PipelineEnv` whose outcome is an `Except String` value, a raised
exception being the `.error` case.  Each embedded function returns its
Python value together with the list of external calls it attempted, and
its result is wrapped in `Except String` so that an exception escaping a
Python function would show up as an `.error` result.
-/

set_option linter.unusedVariables false

namespace Pipeline

/-! ### Python string primitives -/

/-- Whitespace characters recognised by Python `str.strip` and by the
regex class `\s` on ASCII text. -/
def isPySpace (c : Char) : Bool :=
  c == ' ' || c == '\t' || c == '\n' || c == '\r' || c == '\x0b' || c == '\x0c'

/-- Python slicing `s[:n]`. -/
def pyTake (n : Nat) (s : String) : String :=
  String.mk (s.data.take n)

/-- Python `str.strip()` on a character list. -/
def stripChars (s : List Char) : List Char :=
  ((s.dropWhile isPySpace).reverse.dropWhile isPySpace).reverse

/-- Python `str.strip()`. -/
def pyStrip (s : String) : String :=
  String.mk (stripChars s.data)

/-- Python `str.lower()` (ASCII). -/
def pyLower (s : String) : String :=
  String.mk (s.data.map Char.toLower)

/-! ### The regex `Label:\s*(.+)` used by `classify_issue`

`re.search(r"Label:\s*(.+)", text, re.IGNORECASE)` scans `text` for the
first position where the label matches case-insensitively and where the
tail `\s*(.+)` can match; `\s*` is greedy with backtracking and `(.+)`
captures at least one non-newline character up to the end of the line. -/

/-- Case-insensitive literal match of `pat` against a prefix of `s`. -/
def matchesAt : List Char → List Char → Bool
  | [], _ => true
  | _ :: _, [] => false
  | p :: ps, c :: cs => (p.toLower == c.toLower) && matchesAt ps cs

/-- The tail `\s*(.+)` of the pattern, applied at one position: skip
whitespace greedily, backtracking until `(.+)` can capture at least one
non-newline character; the capture extends to the end of the line. -/
def captureAt : List Char → Option (List Char)
  | [] => none
  | c :: cs =>
    if isPySpace c then
      match captureAt cs with
      | some r => some r
      | none =>
        if c ≠ '\n' then some (List.takeWhile (fun x => x ≠ '\n') (c :: cs)) else none
    else
      some (List.takeWhile (fun x => x ≠ '\n') (c :: cs))

/-- `re.search` for `label` followed by `\s*(.+)`: try every start
position from the left; at a position where the label matches but the
tail cannot, continue scanning at the next position. -/
def searchField (label : List Char) : List Char → Option (List Char)
  | [] => none
  | c :: cs =>
    if matchesAt label (c :: cs) then
      match captureAt (List.drop label.length (c :: cs)) with
      | some cap => some cap
      | none => searchField label cs
    else
      searchField label cs

/-- `m.group(1).strip()` for the first match of `label` in `text`,
`none` when the pattern does not match anywhere. -/
def extractField (label : String) (text : String) : Option String :=
  (searchField label.data text.data).map (fun cap => String.mk (stripChars cap))

/-! ### Data model -/

/-- The email dict built by `fetch_customer_emails`. -/
structure Email where
  id : String
  subject : String
  sender : String
  date : String
  body : String
deriving DecidableEq, Repr

/-- The dict returned by `classify_issue`. -/
structure Classification where
  category : String
  priority : String
  summary : String
deriving DecidableEq, Repr

/-- The property bag passed to `notion.pages.create` by `add_to_notion`
(the constant Status and Date fields are omitted: Status is always the
literal "New" and Date the current day). -/
structure RecordProps where
  title : String
  description : String
  rootCause : String
  priority : String
deriving DecidableEq, Repr

/-- A Notion select object, `name` possibly absent. -/
structure SelectObj where
  name : Option String
deriving DecidableEq, Repr

/-- One element of a Notion title array; `content` is
`item.get("text", default).get("content", default)`. -/
structure TitleItem where
  content : Option String
deriving DecidableEq, Repr

/-- One row returned by `notion.databases.query`: the `Root Cause` and
`Priority` select objects (absent when `props.get(...).get("select")` is
`None`) and the `Title` title array. -/
structure NotionPage where
  rootCause : Option SelectObj
  priority : Option SelectObj
  title : List TitleItem
deriving DecidableEq, Repr

/-- The summary dict built by `get_notion_summary`; the two counting
dicts are association lists in insertion order, as Python dicts are. -/
structure Summary where
  total : Nat
  by_category : List (String × Nat)
  by_priority : List (String × Nat)
  high_priority : List String
deriving DecidableEq, Repr

/-- `get_notion_summary` returns either the summary dict or an
`error` dict. -/
inductive SummaryResult where
  | ok : Summary → SummaryResult
  | err : String → SummaryResult
deriving DecidableEq, Repr

/-- The dict returned by `run_full_pipeline`; `error` is present only
on the early-abort path. -/
structure RunResult where
  emails_found : Nat
  emails_processed : Nat
  digest_sent : Bool
  error : Option String
deriving DecidableEq, Repr

/-- A message stub from `service.users().messages().list`. -/
structure MsgStub where
  id : String
deriving DecidableEq, Repr

/-- A message body object, `data` possibly absent. -/
structure PartBody where
  data : Option String
deriving DecidableEq, Repr

/-- One part of a multipart payload. -/
structure Part where
  mimeType : Option String
  body : Option PartBody
deriving DecidableEq, Repr

/-- A message payload from `service.users().messages().get`; `headers`
is absent when the dict lacks the key (a `KeyError` site). -/
structure Payload where
  headers : Option (List (String × String))
  parts : Option (List Part)
  body : Option PartBody
deriving DecidableEq, Repr

/-- A full message from the get call; `payload` absent is a `KeyError`
site. -/
structure RawMessage where
  payload : Option Payload
deriving DecidableEq, Repr

/-- One attempted external call, for stating which calls a code path
performs. -/
inductive ExtCall where
  | auth
  | list
  | getMsg
  | llm
  | create
  | query
  | post
deriving DecidableEq, Repr

/-- Outcomes of every external interaction the pipeline performs.  A
field holding `.error` models that call raising an exception. -/
structure PipelineEnv where
  gmailAuth : Except String Unit
  listMessages : Except String (List MsgStub)
  getMessage : MsgStub → Except String RawMessage
  b64decode : String → Except String String
  llmConfigured : Bool
  llmCall : String → Except String String
  notionConfigured : Bool
  notionCreate : RecordProps → Except String Unit
  notionQuery : Except String (List NotionPage)
  slackConfigured : Bool
  slackPost : String → Except String Nat

/-! ### Mail Source: `fetch_customer_emails` -/

/-- `next((h.value for h in headers if h.name.lower() == name), default)`
without the default. -/
def findHeader (headers : List (String × String)) (name : String) : Option String :=
  (headers.find? (fun h => pyLower h.1 == name)).map (fun h => h.2)

/-- The body-extraction loop over multipart parts: the first part with
`mimeType == "text/plain"` and a `data` field is decoded and the loop
breaks; a part without a `mimeType` key raises; an exhausted loop leaves
the body empty. -/
def findPlainBody (env : PipelineEnv) : List Part → Except String String
  | [] => Except.ok ""
  | p :: rest =>
    match p.mimeType with
    | none => Except.error "KeyError: mimeType"
    | some mt =>
      if mt = "text/plain" ∧ (p.body.bind PartBody.data).isSome then
        env.b64decode ((p.body.bind PartBody.data).getD "")
      else
        findPlainBody env rest

/-- Body extraction from a payload: the multipart branch, else the
single-part branch, else the empty string. -/
def extractBody (env : PipelineEnv) (payload : Payload) : Except String String :=
  match payload.parts with
  | some parts => findPlainBody env parts
  | none =>
    match payload.body with
    | some pb =>
      match pb.data with
      | some d => env.b64decode d
      | none => Except.ok ""
    | none => Except.ok ""

/-- The body of the per-message loop in `fetch_customer_emails`: get the
full message, read headers with defaults, extract and truncate the body.
Any `.error` is the exception the surrounding `except` catches. -/
def extractOne (env : PipelineEnv) (stub : MsgStub) : Except String Email × List ExtCall :=
  match env.getMessage stub with
  | Except.error e => (Except.error e, [ExtCall.getMsg])
  | Except.ok raw =>
    match raw.payload with
    | none => (Except.error "KeyError: payload", [ExtCall.getMsg])
    | some payload =>
      match payload.headers with
      | none => (Except.error "KeyError: headers", [ExtCall.getMsg])
      | some headers =>
        match extractBody env payload with
        | Except.error e => (Except.error e, [ExtCall.getMsg])
        | Except.ok body =>
          (Except.ok
            { id := stub.id
              subject := (findHeader headers "subject").getD "No Subject"
              sender := (findHeader headers "from").getD "Unknown"
              date := (findHeader headers "date").getD ""
              body := pyTake 500 body },
           [ExtCall.getMsg])

/-- One iteration of the message loop: a raising extraction is caught
and the message skipped, a successful one is appended. -/
def fetchStep (env : PipelineEnv) (acc : List Email × List ExtCall) (stub : MsgStub) :
    List Email × List ExtCall :=
  match extractOne env stub with
  | (Except.error _, t) => (acc.1, acc.2 ++ t)
  | (Except.ok em, t) => (acc.1 ++ [em], acc.2 ++ t)

/-- `fetch_customer_emails`: list the window, then extract each message,
skipping a message whose extraction raises; a failing list call is
caught at the top level and yields the empty list. -/
def fetch_customer_emails (env : PipelineEnv) (hoursBack : Int) :
    Except String (List Email) × List ExtCall :=
  match env.listMessages with
  | Except.error _ => (Except.ok [], [ExtCall.list])
  | Except.ok stubs =>
    let r := stubs.foldl (fetchStep env) ([], [])
    (Except.ok r.1, ExtCall.list :: r.2)

/-! ### Classifier: `classify_issue` -/

/-- The literal prompt built by `classify_issue`. -/
def buildPrompt (subject body : String) : String :=
  "You are an IT maintenance assistant. Analyze this email and classify the issue.\n\nEmail Subject: "
    ++ subject
    ++ "\nEmail Body: "
    ++ pyTake 500 body
    ++ "\n\nClassify into ONE category:\n- Hardware (physical equipment problems)\n- Software (application/program issues)  \n- Network (connectivity problems)\n- User Error (user mistakes)\n- Security (security threats)\n- Other\n\nPriority: High, Medium, or Low\n\nRespond EXACTLY like this:\nCategory: [category]\nPriority: [priority]\nSummary: [one sentence summary]"

/-- The three field extractions from the (already stripped) response
text, each falling back to its default individually. -/
def parseClassification (subject : String) (result : String) : Classification :=
  { category := (extractField "Category:" result).getD "Other"
    priority := (extractField "Priority:" result).getD "Medium"
    summary := (extractField "Summary:" result).getD subject }

/-- `classify_issue`: the no-client fallback, then the completion call
whose failure (or an unparsable response) degrades to the defaults. -/
def classify_issue (env : PipelineEnv) (subject body : String) :
    Except String Classification × List ExtCall :=
  if !env.llmConfigured then
    (Except.ok { category := "Other", priority := "Medium", summary := subject }, [])
  else
    match env.llmCall (buildPrompt subject body) with
    | Except.error _ =>
      (Except.ok { category := "Other", priority := "Medium", summary := subject },
       [ExtCall.llm])
    | Except.ok content =>
      (Except.ok (parseClassification subject (pyStrip content)), [ExtCall.llm])

/-! ### Record Store: `add_to_notion` and `get_notion_summary` -/

/-- The property bag `add_to_notion` sends: title and description with
their `or` defaults and truncations, category and priority verbatim
from the classification. -/
def buildRecordProps (email : Email) (c : Classification) : RecordProps :=
  { title := pyTake 100 (if email.subject = "" then "No Subject" else email.subject)
    description := pyTake 2000 (if email.body = "" then "No content" else email.body)
    rootCause := c.category
    priority := c.priority }

/-- `add_to_notion`: `false` when the store is not configured, one
create call otherwise, its failure caught and reported as `false`. -/
def add_to_notion (env : PipelineEnv) (email : Email) (c : Classification) :
    Except String Bool × List ExtCall :=
  if !env.notionConfigured then
    (Except.ok false, [])
  else
    match env.notionCreate (buildRecordProps email c) with
    | Except.ok _ => (Except.ok true, [ExtCall.create])
    | Except.error _ => (Except.ok false, [ExtCall.create])

/-- `d[k] = d.get(k, 0) + 1` on an insertion-ordered association list:
an existing key is incremented in place, a new key is appended. -/
def bump (m : List (String × Nat)) (k : String) : List (String × Nat) :=
  match m with
  | [] => [(k, 1)]
  | kv :: rest => if kv.1 = k then (kv.1, kv.2 + 1) :: rest else kv :: bump rest k

/-- `d.get(k, 0)`. -/
def lookupCount (m : List (String × Nat)) (k : String) : Nat :=
  match m with
  | [] => 0
  | kv :: rest => if kv.1 = k then kv.2 else lookupCount rest k

/-- The sum of all counts in a counting dict. -/
def sumCounts (m : List (String × Nat)) : Nat :=
  (m.map (fun kv => kv.2)).sum

/-- `page.get("properties").get("Root Cause").get("select")`, with the
`name` default applied as in the source. -/
def pageCategory (p : NotionPage) : Option String :=
  p.rootCause.map (fun sel => sel.name.getD "Other")

/-- The priority select, with its `name` default. -/
def pagePriority (p : NotionPage) : Option String :=
  p.priority.map (fun sel => sel.name.getD "Medium")

/-- `title_array[0].get("text", default).get("content", default)` when
the title array is nonempty. -/
def pageTitle (p : NotionPage) : Option String :=
  p.title.head?.map (fun t => t.content.getD "No title")

/-- The title with its default, for pages known to have a title. -/
def pageTitleD (p : NotionPage) : String :=
  (pageTitle p).getD "No title"

/-- The title contributed to the high-priority list by one page:
present exactly when the priority select exists, reads High, and the
title array is nonempty. -/
def highEntry (p : NotionPage) : Option String :=
  if pagePriority p = some "High" then pageTitle p else none

/-- The Root Cause section of the loop body of `get_notion_summary`:
count the category when its select exists. -/
def stepCategory (s : Summary) (page : NotionPage) : Summary :=
  match page.rootCause with
  | none => s
  | some sel => { s with by_category := bump s.by_category (sel.name.getD "Other") }

/-- The Priority section of the loop body: count the priority when its
select exists and, under a High priority, append the first title if
any. -/
def stepPriority (s : Summary) (page : NotionPage) : Summary :=
  match page.priority with
  | none => s
  | some sel =>
    let s2 := { s with by_priority := bump s.by_priority (sel.name.getD "Medium") }
    if sel.name.getD "Medium" = "High" then
      match page.title with
      | [] => s2
      | item :: _ =>
        { s2 with high_priority := s2.high_priority ++ [item.content.getD "No title"] }
    else
      s2

/-- The loop body of `get_notion_summary`: the Root Cause section, then
the Priority section on its result. -/
def summaryStep (s : Summary) (page : NotionPage) : Summary :=
  stepPriority (stepCategory s page) page

/-- The summary dict folded over the query rows, `total` fixed to the
row count up front. -/
def computeSummary (pages : List NotionPage) : Summary :=
  pages.foldl summaryStep
    { total := pages.length, by_category := [], by_priority := [], high_priority := [] }

/-- `get_notion_summary`: the not-configured error dict, the caught
query failure as an error dict, or the folded summary. -/
def get_notion_summary (env : PipelineEnv) : Except String SummaryResult × List ExtCall :=
  if !env.notionConfigured then
    (Except.ok (SummaryResult.err "Notion not configured"), [])
  else
    match env.notionQuery with
    | Except.error e => (Except.ok (SummaryResult.err e), [ExtCall.query])
    | Except.ok pages => (Except.ok (SummaryResult.ok (computeSummary pages)), [ExtCall.query])

/-! ### Notifier: `send_slack_digest` -/

/-- `"\n".join(lines)`. -/
def joinLines : List String → String
  | [] => ""
  | [l] => l
  | l :: ls => l ++ "\n" ++ joinLines ls

/-- The category block of the digest message. -/
def categoryText (s : Summary) : String :=
  if s.by_category.isEmpty then "• None"
  else joinLines (s.by_category.map (fun kv => "• " ++ kv.1 ++ ": " ++ toString kv.2))

/-- The priority block of the digest message. -/
def priorityText (s : Summary) : String :=
  if s.by_priority.isEmpty then "• None"
  else joinLines (s.by_priority.map (fun kv => "• " ++ kv.1 ++ ": " ++ toString kv.2))

/-- The high-priority lines: the first five titles, each with the red
marker. -/
def highPriorityLines (s : Summary) : List String :=
  (s.high_priority.take 5).map (fun t => "🔴 " ++ t)

/-- The high-priority block: the marked lines, or the all-clear line. -/
def highPriorityText (s : Summary) : String :=
  if s.high_priority.isEmpty then "✅ No high priority issues"
  else joinLines (highPriorityLines s)

/-- The full digest message posted to the webhook. -/
def buildDigestMessage (s : Summary) : String :=
  "📊 *Daily Maintenance Report*\n\n*Total Issues:* "
    ++ toString s.total
    ++ "\n\n*By Category:*\n"
    ++ categoryText s
    ++ "\n\n*By Priority:*\n"
    ++ priorityText s
    ++ "\n\n*High Priority Items:*\n"
    ++ highPriorityText s
    ++ "\n"

/-- `send_slack_digest`: `false` without a webhook URL or on an error
summary; otherwise one post whose non-200 status or caught transport
failure is reported as `false`. -/
def send_slack_digest (env : PipelineEnv) (s : SummaryResult) :
    Except String Bool × List ExtCall :=
  if !env.slackConfigured then
    (Except.ok false, [])
  else
    match s with
    | SummaryResult.err _ => (Except.ok false, [])
    | SummaryResult.ok sum =>
      match env.slackPost (buildDigestMessage sum) with
      | Except.ok code => (Except.ok (decide (code = 200)), [ExtCall.post])
      | Except.error _ => (Except.ok false, [ExtCall.post])

/-! ### Pipeline Runner: `run_full_pipeline` -/

/-- The body of the classify-and-store loop: the surrounding
`try/except` turns a raising step into a skipped message. -/
def processOne (env : PipelineEnv) (acc : Nat × List ExtCall) (email : Email) :
    Nat × List ExtCall :=
  let cres := classify_issue env email.subject email.body
  match cres.1 with
  | Except.error _ => (acc.1, acc.2 ++ cres.2)
  | Except.ok c =>
    let ares := add_to_notion env email c
    match ares.1 with
    | Except.error _ => (acc.1, acc.2 ++ cres.2 ++ ares.2)
    | Except.ok ok => (if ok then acc.1 + 1 else acc.1, acc.2 ++ cres.2 ++ ares.2)

/-- `run_full_pipeline`: step 1 aborts on an authentication or fetch
exception with a zero-count result carrying the error; step 2 folds the
per-message loop; step 3 summarizes and notifies, its exceptions caught
and the digest simply not sent. -/
def runFullPipeline (env : PipelineEnv) (hoursBack : Int) :
    Except String RunResult × List ExtCall :=
  match env.gmailAuth with
  | Except.error e =>
    (Except.ok
      { emails_found := 0, emails_processed := 0, digest_sent := false, error := some e },
     [ExtCall.auth])
  | Except.ok _ =>
    let fetched := fetch_customer_emails env hoursBack
    match fetched.1 with
    | Except.error e =>
      (Except.ok
        { emails_found := 0, emails_processed := 0, digest_sent := false, error := some e },
       ExtCall.auth :: fetched.2)
    | Except.ok emails =>
      let step2 := emails.foldl (processOne env) (0, [])
      let sum := get_notion_summary env
      let sent :=
        match sum.1 with
        | Except.ok (SummaryResult.ok s) =>
          let d := send_slack_digest env (SummaryResult.ok s)
          ((match d.1 with
            | Except.ok b => b
            | Except.error _ => false), d.2)
        | Except.ok (SummaryResult.err _) => (false, [])
        | Except.error _ => (false, [])
      (Except.ok
        { emails_found := emails.length
          emails_processed := step2.1
          digest_sent := sent.1
          error := none },
       ExtCall.auth :: (fetched.2 ++ step2.2 ++ sum.2 ++ sent.2))

/-! ### Web boundary: the `/api/run-pipeline` route of `app.py` -/

/-- The JSON body the route sends back, with its HTTP status. -/
structure RouteResponse where
  success : Bool
  status : Nat
  error : Option String
  result : Option RunResult
deriving DecidableEq, Repr

/-- The `run_pipeline` route: read `hours` with its default, reject a
value outside `[1, 168]` with a 400 before calling the pipeline, and
otherwise wrap the pipeline result (a pipeline exception would be
caught and reported as a 500). -/
def run_pipeline_route (env : PipelineEnv) (hoursArg : Option Int) :
    RouteResponse × List ExtCall :=
  if hoursArg.getD 24 < 1 ∨ hoursArg.getD 24 > 168 then
    ({ success := false, status := 400,
       error := some "Hours must be between 1 and 168", result := none }, [])
  else
    match runFullPipeline env (hoursArg.getD 24) with
    | (Except.ok r, t) =>
      ({ success := true, status := 200, error := none, result := some r }, t)
    | (Except.error e, t) =>
      ({ success := false, status := 500,
         error := some ("Pipeline failed: " ++ e), result := none }, t)

/-! ### Concrete environments and inputs for witnesses -/

/-- An environment with nothing configured and every external call
failing. -/
def baseEnv : PipelineEnv :=
  { gmailAuth := Except.ok ()
    listMessages := Except.ok []
    getMessage := fun _ => Except.error "not found"
    b64decode := fun s => Except.ok s
    llmConfigured := false
    llmCall := fun _ => Except.error "no client"
    notionConfigured := false
    notionCreate := fun _ => Except.error "Notion not configured"
    notionQuery := Except.error "Notion not configured"
    slackConfigured := false
    slackPost := fun _ => Except.error "no webhook" }

/-- An environment whose Gmail authentication raises. -/
def envAuthFail : PipelineEnv :=
  { baseEnv with gmailAuth := Except.error "credentials.json not found" }

/-- An environment whose model returns an out-of-vocabulary category. -/
def envBanana : PipelineEnv :=
  { baseEnv with
      llmConfigured := true
      llmCall := fun _ => Except.ok "Category: Banana"
      notionConfigured := true
      notionCreate := fun _ => Except.ok () }

/-- An environment whose model answers with a category line only. -/
def envNetOnly : PipelineEnv :=
  { baseEnv with
      llmConfigured := true
      llmCall := fun _ => Except.ok "Category: Network" }

/-- A sample email. -/
def email1 : Email :=
  { id := "id1", subject := "Printer on fire", sender := "a@b", date := "", body := "body" }

/-- A sample classification. -/
def cls1 : Classification :=
  { category := "Hardware", priority := "High", summary := "x" }

/-- A message list where the second message cannot be fetched. -/
def envFetchMix : PipelineEnv :=
  { baseEnv with
      listMessages := Except.ok [{ id := "m1" }, { id := "m2" }]
      getMessage := fun stub =>
        if stub.id == "m1" then
          Except.ok
            { payload := some
                { headers := some [("Subject", "Hello"), ("From", "a@b")]
                  parts := none
                  body := some { data := some "hi there" } } }
        else
          Except.error "HttpError 404" }

/-- An environment whose message listing raises. -/
def envListFail : PipelineEnv :=
  { baseEnv with listMessages := Except.error "HttpError 500" }

/-- Three sample Notion rows: two High-priority Hardware rows around a
Medium Network row. -/
def pages3 : List NotionPage :=
  [ { rootCause := some { name := some "Hardware" }
      priority := some { name := some "High" }
      title := [{ content := some "T1" }] }
  , { rootCause := some { name := some "Network" }
      priority := some { name := some "Medium" }
      title := [{ content := some "T2" }] }
  , { rootCause := some { name := some "Hardware" }
      priority := some { name := some "High" }
      title := [{ content := some "T3" }] } ]

/-- An environment whose store query returns the three sample rows. -/
def envQuery : PipelineEnv :=
  { baseEnv with
      notionConfigured := true
      notionQuery := Except.ok pages3 }

/-! ### Claim theorems -/

/-- C2: for every input `hours_back` and every outcome of the
per-message classify/append steps and of the summarize/notify step,
`run_full_pipeline` completes normally and returns a `RunResult`; it
never raises an exception to its caller. -/
theorem C2_pipeline_total (env : PipelineEnv) (hoursBack : Int) :
    ∃ r : RunResult, (runFullPipeline env hoursBack).1 = Except.ok r := by
  unfold runFullPipeline
  cases env.gmailAuth with
  | error e => exact ⟨_, rfl⟩
  | ok _ =>
    cases hf : (fetch_customer_emails env hoursBack).1 with
    | error e => simp only [hf]; exact ⟨_, rfl⟩
    | ok emails => simp only [hf]; exact ⟨_, rfl⟩

/-- C3: when the authenticate-and-fetch step raises, the pipeline
returns the zero-count `RunResult` carrying the error, and the only
external call attempted was the authentication: no classification,
store, query, or webhook call is executed. -/
theorem C3_auth_failure_aborts (env : PipelineEnv) (hoursBack : Int) (e : String)
    (h : env.gmailAuth = Except.error e) :
    runFullPipeline env hoursBack =
      (Except.ok
        { emails_found := 0, emails_processed := 0, digest_sent := false, error := some e },
       [ExtCall.auth]) ∧
    ExtCall.llm ∉ (runFullPipeline env hoursBack).2 ∧
    ExtCall.create ∉ (runFullPipeline env hoursBack).2 ∧
    ExtCall.query ∉ (runFullPipeline env hoursBack).2 ∧
    ExtCall.post ∉ (runFullPipeline env hoursBack).2 := by
  have h1 : runFullPipeline env hoursBack =
      (Except.ok
        { emails_found := 0, emails_processed := 0, digest_sent := false, error := some e },
       [ExtCall.auth]) := by
    unfold runFullPipeline
    rw [h]
  refine ⟨h1, ?_, ?_, ?_, ?_⟩ <;> rw [h1] <;> simp

/-- C3 witness: a concrete environment whose authentication raises. -/
theorem C3_auth_failure_aborts_witness :
    runFullPipeline envAuthFail 24 =
      (Except.ok
        { emails_found := 0, emails_processed := 0, digest_sent := false,
          error := some "credentials.json not found" },
       [ExtCall.auth]) :=
  (C3_auth_failure_aborts envAuthFail 24 "credentials.json not found" rfl).1

/-- C6: an `hours` value outside `[1, 168]` is rejected by the web
boundary with the validation error and a 400 status, and no external
call of any kind is attempted. -/
theorem C6_out_of_range_rejected (env : PipelineEnv) (h : Int)
    (hout : h < 1 ∨ 168 < h) :
    run_pipeline_route env (some h) =
      ({ success := false, status := 400,
         error := some "Hours must be between 1 and 168", result := none }, []) := by
  unfold run_pipeline_route
  simp only [Option.getD_some]
  rw [if_pos hout]

/-- C6 witness: the boundary rejects `hours = 0` with no external
call. -/
theorem C6_out_of_range_rejected_witness :
    run_pipeline_route baseEnv (some 0) =
      ({ success := false, status := 400,
         error := some "Hours must be between 1 and 168", result := none }, []) :=
  C6_out_of_range_rejected baseEnv 0 (Or.inl (by decide))

/-- The first component of the message fold: skipped messages drop out,
successful extractions are kept in order. -/
theorem fetchStep_fold_fst (env : PipelineEnv) (stubs : List MsgStub)
    (acc : List Email × List ExtCall) :
    (stubs.foldl (fetchStep env) acc).1 =
      acc.1 ++ stubs.filterMap (fun s => ((extractOne env s).1).toOption) := by
  induction stubs generalizing acc with
  | nil => simp
  | cons stub rest ih =>
    rcases hx : extractOne env stub with ⟨res, t⟩
    cases res with
    | error e =>
      simp only [List.foldl_cons, fetchStep, hx, List.filterMap_cons, Except.toOption,
        ih]
    | ok em =>
      simp only [List.foldl_cons, fetchStep, hx, List.filterMap_cons, Except.toOption,
        ih, List.append_assoc, List.singleton_append]

/-- C5: each of the three classification fields defaults individually
when its labelled line is not found in the model response; a response
containing only a category line keeps that category and defaults the
other two fields. -/
theorem C5_fields_default_individually (env : PipelineEnv) (subject body resp : String)
    (hconf : env.llmConfigured = true)
    (hresp : env.llmCall (buildPrompt subject body) = Except.ok resp) :
    ∃ c : Classification, (classify_issue env subject body).1 = Except.ok c ∧
      (extractField "Category:" (pyStrip resp) = none → c.category = "Other") ∧
      (extractField "Priority:" (pyStrip resp) = none → c.priority = "Medium") ∧
      (extractField "Summary:" (pyStrip resp) = none → c.summary = subject) ∧
      (resp = "Category: Network" →
        c = { category := "Network", priority := "Medium", summary := subject }) := by
  refine ⟨parseClassification subject (pyStrip resp), ?_, ?_, ?_, ?_, ?_⟩
  · simp [classify_issue, hconf, hresp]
  · intro h
    simp [parseClassification, h]
  · intro h
    simp [parseClassification, h]
  · intro h
    simp [parseClassification, h]
  · intro h
    subst h
    have hc : extractField "Category:" (pyStrip "Category: Network") = some "Network" := by
      decide
    have hp : extractField "Priority:" (pyStrip "Category: Network") = none := by
      decide
    have hs : extractField "Summary:" (pyStrip "Category: Network") = none := by
      decide
    simp [parseClassification, hc, hp, hs]

/-- C5 witness: the category-only response at a concrete environment. -/
theorem C5_fields_default_individually_witness :
    ∃ c : Classification, (classify_issue envNetOnly "Printer down" "b").1 = Except.ok c ∧
      (extractField "Category:" (pyStrip "Category: Network") = none → c.category = "Other") ∧
      (extractField "Priority:" (pyStrip "Category: Network") = none → c.priority = "Medium") ∧
      (extractField "Summary:" (pyStrip "Category: Network") = none →
        c.summary = "Printer down") ∧
      ("Category: Network" = "Category: Network" →
        c = { category := "Network", priority := "Medium", summary := "Printer down" }) :=
  C5_fields_default_individually envNetOnly "Printer down" "b" "Category: Network" rfl rfl

/-- C1 counterexample: an out-of-vocabulary model category is written
verbatim into the Record: the stored Root Cause is the free text
"Banana", which is none of the enumerated options. -/
theorem C1_counterexample :
    (classify_issue envBanana "Printer on fire" "body").1 =
      Except.ok { category := "Banana", priority := "Medium", summary := "Printer on fire" } ∧
    (add_to_notion envBanana email1
        { category := "Banana", priority := "Medium", summary := "Printer on fire" }).1 =
      Except.ok true ∧
    (buildRecordProps email1
        { category := "Banana", priority := "Medium", summary := "Printer on fire" }).rootCause =
      "Banana" ∧
    ¬ ("Banana" ∈ ["Hardware", "Software", "Network", "UserError", "Security", "Other"]) := by
  refine ⟨rfl, rfl, by decide, by decide⟩

/-- C1 (amended): the classifier defaults the category to Other and the
priority to Medium only when the labelled line is absent from the model
response; when the line is present its text is kept verbatim, with no
vocabulary check, and the Record Store writes exactly that text into
the Record. -/
theorem C1_amended_verbatim (env : PipelineEnv) (email : Email) (subject body resp : String)
    (hconf : env.llmConfigured = true)
    (hresp : env.llmCall (buildPrompt subject body) = Except.ok resp) :
    ∃ c : Classification, (classify_issue env subject body).1 = Except.ok c ∧
      c.category = (extractField "Category:" (pyStrip resp)).getD "Other" ∧
      c.priority = (extractField "Priority:" (pyStrip resp)).getD "Medium" ∧
      (buildRecordProps email c).rootCause = c.category ∧
      (buildRecordProps email c).priority = c.priority := by
  refine ⟨parseClassification subject (pyStrip resp), ?_, rfl, rfl, rfl, rfl⟩
  simp [classify_issue, hconf, hresp]

/-- C1 (amended) witness: the "Banana" response propagated verbatim. -/
theorem C1_amended_verbatim_witness :
    ∃ c : Classification, (classify_issue envBanana "s" "b").1 = Except.ok c ∧
      c.category = (extractField "Category:" (pyStrip "Category: Banana")).getD "Other" ∧
      c.priority = (extractField "Priority:" (pyStrip "Category: Banana")).getD "Medium" ∧
      (buildRecordProps email1 c).rootCause = c.category ∧
      (buildRecordProps email1 c).priority = c.priority :=
  C1_amended_verbatim envBanana email1 "s" "b" "Category: Banana" rfl rfl

/-- C7: the mail fetch never raises: a failing top-level list call
yields the empty list, and a failing per-message extraction skips only
that message, the successfully extracted messages being returned in
order. -/
theorem C7_fetch_contains_failures (env : PipelineEnv) (hoursBack : Int) :
    (∃ l, (fetch_customer_emails env hoursBack).1 = Except.ok l) ∧
    (∀ e, env.listMessages = Except.error e →
      fetch_customer_emails env hoursBack = (Except.ok [], [ExtCall.list])) ∧
    (∀ stubs, env.listMessages = Except.ok stubs →
      (fetch_customer_emails env hoursBack).1 =
        Except.ok (stubs.filterMap (fun s => ((extractOne env s).1).toOption))) := by
  refine ⟨?_, ?_, ?_⟩
  · unfold fetch_customer_emails
    cases env.listMessages with
    | error e => exact ⟨_, rfl⟩
    | ok stubs => exact ⟨_, rfl⟩
  · intro e he
    unfold fetch_customer_emails
    rw [he]
  · intro stubs hs
    unfold fetch_customer_emails
    rw [hs]
    simp only
    rw [fetchStep_fold_fst]
    simp

/-- C7 witness: a failing list call at a concrete environment returns
the empty list. -/
theorem C7_fetch_contains_failures_witness :
    fetch_customer_emails envListFail 24 = (Except.ok [], [ExtCall.list]) :=
  (C7_fetch_contains_failures envListFail 24).2.1 "HttpError 500" rfl

/-- C8: the store append never raises: it returns a boolean for every
store outcome, `false` when the store is not configured and `false`
when the create call fails, `true` only on a successful create. -/
theorem C8_append_never_raises (env : PipelineEnv) (email : Email) (c : Classification) :
    (∃ b, (add_to_notion env email c).1 = Except.ok b) ∧
    (env.notionConfigured = false → add_to_notion env email c = (Except.ok false, [])) ∧
    (env.notionConfigured = true → ∀ e,
      env.notionCreate (buildRecordProps email c) = Except.error e →
      (add_to_notion env email c).1 = Except.ok false) ∧
    (env.notionConfigured = true →
      env.notionCreate (buildRecordProps email c) = Except.ok () →
      (add_to_notion env email c).1 = Except.ok true) := by
  refine ⟨?_, ?_, ?_, ?_⟩
  · unfold add_to_notion
    cases env.notionConfigured with
    | false => exact ⟨_, rfl⟩
    | true =>
      cases hc : env.notionCreate (buildRecordProps email c) with
      | error e => simp [hc]
      | ok u => simp [hc]
  · intro h
    simp [add_to_notion, h]
  · intro h e he
    simp [add_to_notion, h, he]
  · intro h hok
    simp [add_to_notion, h, hok]

/-- C8 witness: the unconfigured store at a concrete input. -/
theorem C8_append_never_raises_witness :
    add_to_notion baseEnv email1 cls1 = (Except.ok false, []) :=
  (C8_append_never_raises baseEnv email1 cls1).2.1 rfl

/-- C9: the notifier returns `false` with no HTTP call when the webhook
is not configured or the summary carries an error; otherwise it posts
exactly once and returns `true` exactly when the response status is
200, `false` on any other status or on a transport exception. -/
theorem C9_notify_strict_success (env : PipelineEnv) (s : SummaryResult) :
    (env.slackConfigured = false → send_slack_digest env s = (Except.ok false, [])) ∧
    (∀ e, s = SummaryResult.err e → send_slack_digest env s = (Except.ok false, [])) ∧
    (∀ sum, env.slackConfigured = true → s = SummaryResult.ok sum →
      (send_slack_digest env s).2 = [ExtCall.post] ∧
      (∀ code, env.slackPost (buildDigestMessage sum) = Except.ok code →
        ((send_slack_digest env s).1 = Except.ok (decide (code = 200)) ∧
         ((send_slack_digest env s).1 = Except.ok true ↔ code = 200))) ∧
      (∀ e, env.slackPost (buildDigestMessage sum) = Except.error e →
        (send_slack_digest env s).1 = Except.ok false)) := by
  refine ⟨?_, ?_, ?_⟩
  · intro h
    simp [send_slack_digest, h]
  · intro e he
    subst he
    unfold send_slack_digest
    cases env.slackConfigured <;> simp
  · intro sum hconf hs
    subst hs
    refine ⟨?_, ?_, ?_⟩
    · unfold send_slack_digest
      rw [hconf]
      cases hp : env.slackPost (buildDigestMessage sum) <;> simp [hp]
    · intro code hp
      constructor
      · simp [send_slack_digest, hconf, hp]
      · simp [send_slack_digest, hconf, hp]
    · intro e hp
      simp [send_slack_digest, hconf, hp]

/-- C9 witness: an error summary at a concrete environment. -/
theorem C9_notify_strict_success_witness :
    send_slack_digest baseEnv (SummaryResult.err "boom") = (Except.ok false, []) :=
  (C9_notify_strict_success baseEnv (SummaryResult.err "boom")).2.1 "boom" rfl

/-! ### Counting lemmas for the summary fold -/

theorem lookupCount_bump (m : List (String × Nat)) (k k' : String) :
    lookupCount (bump m k) k' = lookupCount m k' + (if k = k' then 1 else 0) := by
  induction m with
  | nil =>
    by_cases h : k = k' <;> simp [bump, lookupCount, h]
  | cons kv rest ih =>
    by_cases h1 : kv.1 = k
    · subst h1
      by_cases h2 : kv.1 = k' <;> simp [bump, lookupCount, h2]
    · by_cases h2 : kv.1 = k'
      · have h3 : ¬ k = k' := fun hk => h1 (h2.trans hk.symm)
        have h4 : ¬ k' = k := fun hk => h3 hk.symm
        simp [bump, lookupCount, h1, h2, h3, h4]
      · simp [bump, lookupCount, h1, h2, ih]

theorem sumCounts_bump (m : List (String × Nat)) (k : String) :
    sumCounts (bump m k) = sumCounts m + 1 := by
  induction m with
  | nil => simp [bump, sumCounts]
  | cons kv rest ih =>
    by_cases h : kv.1 = k <;> simp [bump, sumCounts, h] <;>
      simp [sumCounts] at ih <;> omega

theorem stepCategory_total (s : Summary) (p : NotionPage) :
    (stepCategory s p).total = s.total := by
  unfold stepCategory
  cases p.rootCause <;> rfl

theorem stepCategory_by_priority (s : Summary) (p : NotionPage) :
    (stepCategory s p).by_priority = s.by_priority := by
  unfold stepCategory
  cases p.rootCause <;> rfl

theorem stepCategory_high (s : Summary) (p : NotionPage) :
    (stepCategory s p).high_priority = s.high_priority := by
  unfold stepCategory
  cases p.rootCause <;> rfl

theorem stepCategory_lookup (s : Summary) (p : NotionPage) (c : String) :
    lookupCount (stepCategory s p).by_category c =
      lookupCount s.by_category c + (if pageCategory p = some c then 1 else 0) := by
  unfold stepCategory pageCategory
  cases p.rootCause with
  | none => simp
  | some sel =>
    simp only [Option.map_some]
    rw [lookupCount_bump]
    by_cases h : sel.name.getD "Other" = c <;> simp [h]

theorem stepCategory_sum (s : Summary) (p : NotionPage) :
    sumCounts (stepCategory s p).by_category =
      sumCounts s.by_category + (if (pageCategory p).isSome then 1 else 0) := by
  unfold stepCategory pageCategory
  cases p.rootCause with
  | none => simp
  | some sel => simp [sumCounts_bump]

theorem stepPriority_total (s : Summary) (p : NotionPage) :
    (stepPriority s p).total = s.total := by
  unfold stepPriority
  cases p.priority with
  | none => rfl
  | some sel =>
    by_cases h : sel.name.getD "Medium" = "High" <;> cases p.title <;> simp [h]

theorem stepPriority_by_category (s : Summary) (p : NotionPage) :
    (stepPriority s p).by_category = s.by_category := by
  unfold stepPriority
  cases p.priority with
  | none => rfl
  | some sel =>
    by_cases h : sel.name.getD "Medium" = "High" <;> cases p.title <;> simp [h]

theorem stepPriority_lookup (s : Summary) (p : NotionPage) (c : String) :
    lookupCount (stepPriority s p).by_priority c =
      lookupCount s.by_priority c + (if pagePriority p = some c then 1 else 0) := by
  unfold stepPriority pagePriority
  cases p.priority with
  | none => simp
  | some sel =>
    by_cases h : sel.name.getD "Medium" = "High" <;> cases p.title <;>
      simp [h, lookupCount_bump]

theorem stepPriority_sum (s : Summary) (p : NotionPage) :
    sumCounts (stepPriority s p).by_priority =
      sumCounts s.by_priority + (if (pagePriority p).isSome then 1 else 0) := by
  unfold stepPriority pagePriority
  cases p.priority with
  | none => simp
  | some sel =>
    by_cases h : sel.name.getD "Medium" = "High" <;> cases p.title <;>
      simp [h, sumCounts_bump]

theorem stepPriority_high (s : Summary) (p : NotionPage) :
    (stepPriority s p).high_priority = s.high_priority ++ (highEntry p).toList := by
  unfold stepPriority highEntry pagePriority pageTitle
  cases p.priority with
  | none => simp
  | some sel =>
    by_cases h : sel.name.getD "Medium" = "High" <;> cases p.title <;> simp [h]

theorem summaryStep_total (s : Summary) (p : NotionPage) :
    (summaryStep s p).total = s.total := by
  unfold summaryStep
  rw [stepPriority_total, stepCategory_total]

theorem summaryStep_cat (s : Summary) (p : NotionPage) (c : String) :
    lookupCount (summaryStep s p).by_category c =
      lookupCount s.by_category c + (if pageCategory p = some c then 1 else 0) := by
  unfold summaryStep
  rw [stepPriority_by_category, stepCategory_lookup]

theorem summaryStep_pri (s : Summary) (p : NotionPage) (c : String) :
    lookupCount (summaryStep s p).by_priority c =
      lookupCount s.by_priority c + (if pagePriority p = some c then 1 else 0) := by
  unfold summaryStep
  rw [stepPriority_lookup, stepCategory_by_priority]

theorem summaryStep_cat_sum (s : Summary) (p : NotionPage) :
    sumCounts (summaryStep s p).by_category =
      sumCounts s.by_category + (if (pageCategory p).isSome then 1 else 0) := by
  unfold summaryStep
  rw [stepPriority_by_category, stepCategory_sum]

theorem summaryStep_pri_sum (s : Summary) (p : NotionPage) :
    sumCounts (summaryStep s p).by_priority =
      sumCounts s.by_priority + (if (pagePriority p).isSome then 1 else 0) := by
  unfold summaryStep
  rw [stepPriority_sum, stepCategory_by_priority]

theorem summaryStep_high (s : Summary) (p : NotionPage) :
    (summaryStep s p).high_priority = s.high_priority ++ (highEntry p).toList := by
  unfold summaryStep
  rw [stepPriority_high, stepCategory_high]

theorem foldl_summaryStep_total (pages : List NotionPage) (s : Summary) :
    (List.foldl summaryStep s pages).total = s.total := by
  induction pages generalizing s with
  | nil => rfl
  | cons p rest ih => rw [List.foldl_cons, ih, summaryStep_total]

theorem foldl_summaryStep_cat (pages : List NotionPage) (s : Summary) (c : String) :
    lookupCount (List.foldl summaryStep s pages).by_category c =
      lookupCount s.by_category c +
        (pages.filter (fun p => pageCategory p = some c)).length := by
  induction pages generalizing s with
  | nil => simp
  | cons p rest ih =>
    rw [List.foldl_cons, ih, summaryStep_cat]
    by_cases h : pageCategory p = some c <;> simp [h] <;> omega

theorem foldl_summaryStep_pri (pages : List NotionPage) (s : Summary) (c : String) :
    lookupCount (List.foldl summaryStep s pages).by_priority c =
      lookupCount s.by_priority c +
        (pages.filter (fun p => pagePriority p = some c)).length := by
  induction pages generalizing s with
  | nil => simp
  | cons p rest ih =>
    rw [List.foldl_cons, ih, summaryStep_pri]
    by_cases h : pagePriority p = some c <;> simp [h] <;> omega

theorem foldl_summaryStep_cat_sum (pages : List NotionPage) (s : Summary) :
    sumCounts (List.foldl summaryStep s pages).by_category =
      sumCounts s.by_category +
        (pages.filter (fun p => (pageCategory p).isSome)).length := by
  induction pages generalizing s with
  | nil => simp
  | cons p rest ih =>
    rw [List.foldl_cons, ih, summaryStep_cat_sum]
    by_cases h : (pageCategory p).isSome <;> simp [h] <;> omega

theorem foldl_summaryStep_pri_sum (pages : List NotionPage) (s : Summary) :
    sumCounts (List.foldl summaryStep s pages).by_priority =
      sumCounts s.by_priority +
        (pages.filter (fun p => (pagePriority p).isSome)).length := by
  induction pages generalizing s with
  | nil => simp
  | cons p rest ih =>
    rw [List.foldl_cons, ih, summaryStep_pri_sum]
    by_cases h : (pagePriority p).isSome <;> simp [h] <;> omega

theorem foldl_summaryStep_high (pages : List NotionPage) (s : Summary) :
    (List.foldl summaryStep s pages).high_priority =
      s.high_priority ++ pages.filterMap highEntry := by
  induction pages generalizing s with
  | nil => simp
  | cons p rest ih =>
    rw [List.foldl_cons, ih, summaryStep_high]
    cases h : highEntry p <;> simp [h]

/-- On rows that all carry a title, the high-priority entries are
exactly the titles of the High-priority rows, in order. -/
theorem filterMap_highEntry_of_titles (pages : List NotionPage)
    (ht : ∀ p ∈ pages, p.title ≠ []) :
    pages.filterMap highEntry =
      (pages.filter (fun p => pagePriority p = some "High")).map pageTitleD := by
  induction pages with
  | nil => rfl
  | cons p rest ih =>
    have hp := ht p (List.mem_cons_self p rest)
    have hrest : ∀ q ∈ rest, q.title ≠ [] := fun q hq => ht q (List.mem_cons_of_mem p hq)
    by_cases h : pagePriority p = some "High"
    · have he : highEntry p = some (pageTitleD p) := by
        unfold highEntry pageTitleD pageTitle
        rw [if_pos h]
        cases hti : p.title with
        | nil => exact absurd hti hp
        | cons t ts => simp [hti]
      simp [List.filterMap_cons, he, List.filter_cons, h, ih hrest]
    · have he : highEntry p = none := by
        unfold highEntry
        rw [if_neg h]
      simp [List.filterMap_cons, he, List.filter_cons, h, ih hrest]

/-- C4: for every row set returned by the store query, the summary has
`total` equal to the row count, `by_category` and `by_priority` mapping
every name to the exact number of rows carrying it, and a high-priority
list holding exactly the titles of the High-priority rows in iteration
order, capped at five in the rendered digest. -/
theorem C4_summary_exact (env : PipelineEnv) (pages : List NotionPage)
    (hconf : env.notionConfigured = true)
    (hq : env.notionQuery = Except.ok pages)
    (ht : ∀ p ∈ pages, p.title ≠ []) :
    (get_notion_summary env).1 = Except.ok (SummaryResult.ok (computeSummary pages)) ∧
    (computeSummary pages).total = pages.length ∧
    (∀ c, lookupCount (computeSummary pages).by_category c =
      (pages.filter (fun p => pageCategory p = some c)).length) ∧
    (∀ c, lookupCount (computeSummary pages).by_priority c =
      (pages.filter (fun p => pagePriority p = some c)).length) ∧
    (computeSummary pages).high_priority =
      (pages.filter (fun p => pagePriority p = some "High")).map pageTitleD ∧
    highPriorityLines (computeSummary pages) =
      (((pages.filter (fun p => pagePriority p = some "High")).map pageTitleD).take 5).map
        (fun t => "🔴 " ++ t) := by
  have hhigh : (computeSummary pages).high_priority =
      (pages.filter (fun p => pagePriority p = some "High")).map pageTitleD := by
    unfold computeSummary
    rw [foldl_summaryStep_high, filterMap_highEntry_of_titles pages ht]
    simp
  refine ⟨?_, ?_, ?_, ?_, hhigh, ?_⟩
  · simp [get_notion_summary, hconf, hq]
  · unfold computeSummary
    rw [foldl_summaryStep_total]
  · intro c
    unfold computeSummary
    rw [foldl_summaryStep_cat]
    simp [lookupCount]
  · intro c
    unfold computeSummary
    rw [foldl_summaryStep_pri]
    simp [lookupCount]
  · unfold highPriorityLines
    rw [hhigh]

/-- C4 witness: the three sample rows. -/
theorem C4_summary_exact_witness :
    (get_notion_summary envQuery).1 = Except.ok (SummaryResult.ok (computeSummary pages3)) ∧
    (computeSummary pages3).total = pages3.length ∧
    (∀ c, lookupCount (computeSummary pages3).by_category c =
      (pages3.filter (fun p => pageCategory p = some c)).length) ∧
    (∀ c, lookupCount (computeSummary pages3).by_priority c =
      (pages3.filter (fun p => pagePriority p = some c)).length) ∧
    (computeSummary pages3).high_priority =
      (pages3.filter (fun p => pagePriority p = some "High")).map pageTitleD ∧
    highPriorityLines (computeSummary pages3) =
      (((pages3.filter (fun p => pagePriority p = some "High")).map pageTitleD).take 5).map
        (fun t => "🔴 " ++ t) :=
  C4_summary_exact envQuery pages3 rfl rfl (by decide)

/-- C10: `total` counts every queried row, while a row without a Root
Cause select is counted in no category bucket, a row without a Priority
select is counted in no priority bucket and never reaches the
high-priority list, and so each bucket family sums to at most
`total`. -/
theorem C10_absent_selects_uncounted (pages : List NotionPage) :
    (computeSummary pages).total = pages.length ∧
    sumCounts (computeSummary pages).by_category =
      (pages.filter (fun p => (pageCategory p).isSome)).length ∧
    sumCounts (computeSummary pages).by_priority =
      (pages.filter (fun p => (pagePriority p).isSome)).length ∧
    sumCounts (computeSummary pages).by_category ≤ (computeSummary pages).total ∧
    sumCounts (computeSummary pages).by_priority ≤ (computeSummary pages).total ∧
    (computeSummary pages).high_priority = pages.filterMap highEntry ∧
    (∀ s p, p.rootCause = none → (summaryStep s p).by_category = s.by_category) ∧
    (∀ s p, p.priority = none →
      (summaryStep s p).by_priority = s.by_priority ∧
      (summaryStep s p).high_priority = s.high_priority) := by
  have htot : (computeSummary pages).total = pages.length := by
    unfold computeSummary
    rw [foldl_summaryStep_total]
  have hcat : sumCounts (computeSummary pages).by_category =
      (pages.filter (fun p => (pageCategory p).isSome)).length := by
    unfold computeSummary
    rw [foldl_summaryStep_cat_sum]
    simp [sumCounts]
  have hpri : sumCounts (computeSummary pages).by_priority =
      (pages.filter (fun p => (pagePriority p).isSome)).length := by
    unfold computeSummary
    rw [foldl_summaryStep_pri_sum]
    simp [sumCounts]
  refine ⟨htot, hcat, hpri, ?_, ?_, ?_, ?_, ?_⟩
  · rw [htot, hcat]
    exact List.length_filter_le _ _
  · rw [htot, hpri]
    exact List.length_filter_le _ _
  · unfold computeSummary
    rw [foldl_summaryStep_high]
    simp
  · intro s p hrc
    unfold summaryStep
    rw [stepPriority_by_category]
    unfold stepCategory
    rw [hrc]
  · intro s p hpr
    constructor
    · unfold summaryStep stepPriority
      rw [hpr]
      exact stepCategory_by_priority s p
    · unfold summaryStep stepPriority
      rw [hpr]
      exact stepCategory_high s p

end Pipeline
